import Mathlib

/-!
Verification of the software rasterizer in `src/ship` (framebuffer,
vertex/fragment shaders, procedural noise library, render entry points).

Floating-point (`f32`) arithmetic is modelled over `ℚ`; the transcendental
primitives (`sin`, `cos`, `atan2`, `sqrt`) have no exact rational
counterpart and are passed explicitly as a bundle of function parameters
(`FOps`), so every statement below is proved for an arbitrary
implementation of those primitives (hypotheses on them are stated where a
property needs them).  `f32::INFINITY`, used by the depth buffer, is
modelled as `⊤` in `WithTop ℚ`.
-/

namespace Ship

/-- raylib `Vector3`, components modelled over `ℚ`. -/
@[ext]
structure Vec3 where
  x : ℚ
  y : ℚ
  z : ℚ
  deriving DecidableEq

/-- raylib `Vector4`, components modelled over `ℚ`. -/
@[ext]
structure Vec4 where
  x : ℚ
  y : ℚ
  z : ℚ
  w : ℚ
  deriving DecidableEq

/-- Componentwise vector addition (raylib `Vector3 + Vector3`). -/
instance : Add Vec3 where
  add a b := ⟨a.x + b.x, a.y + b.y, a.z + b.z⟩

/-- Componentwise scaling (raylib `Vector3 * f32`). -/
instance : HMul Vec3 ℚ Vec3 where
  hMul v s := ⟨v.x * s, v.y * s, v.z * s⟩

/-- A 4×4 matrix (raylib `Matrix`), viewed abstractly as its entries. -/
def Mat4 : Type := Fin 4 → Fin 4 → ℚ

/-- The bundle of `f32` transcendental primitives used by the shaders.
The embedding is parametric in them; `sinf x` stands for `x.sin()`,
`atan2f y x` for `y.atan2(x)`, `sqrtf x` for `x.sqrt()`. -/
structure FOps where
  sinf : ℚ → ℚ
  cosf : ℚ → ℚ
  atan2f : ℚ → ℚ → ℚ
  sqrtf : ℚ → ℚ

/-- Rust `f32` truncation toward zero (the integer part used by `as i32`
casts and by `f32::fract`). -/
def truncQ (q : ℚ) : ℤ :=
  if 0 ≤ q then ⌊q⌋ else ⌈q⌉

/-- Rust `f32::fract`: `self - self.trunc()`.  Note this is
truncation-based, so it is negative on negative non-integer inputs
(unlike the GLSL `fract`). -/
def fract (q : ℚ) : ℚ :=
  q - truncQ q

/-- `x.clamp(0.0, 1.0)` (also `x.max(0.0).min(1.0)`): clamp to `[0,1]`. -/
def clamp01 (q : ℚ) : ℚ :=
  min (max q 0) 1

/-- Quantization of one color channel in `Framebuffer::point`:
`(c.clamp(0.0, 1.0) * 255.0) as u8`. -/
def chan8 (c : ℚ) : ℕ :=
  (truncQ (clamp01 c * 255)).toNat

/-- raylib `Color` (8-bit RGBA). -/
structure ColorU8 where
  r : ℕ
  g : ℕ
  b : ℕ
  a : ℕ
  deriving DecidableEq

/-- `Framebuffer` from src/ship/src/framebuffer.rs.  The color and depth
surfaces are modelled as total functions on pixel coordinates; the Rust
code stores them flat, indexed by `y * width + x`, and guards every
access by the same bounds check, so the two views agree on every
reachable index.  A stored depth is a `WithTop ℚ`, `⊤` standing for
`f32::INFINITY`. -/
structure Framebuffer where
  width : ℤ
  height : ℤ
  colorBuf : ℤ → ℤ → ColorU8
  background : ColorU8
  current : ColorU8
  depthBuf : ℤ → ℤ → WithTop ℚ

/-- `Framebuffer::new`: black background, depth surface at `+∞`. -/
def Framebuffer.new (width height : ℤ) : Framebuffer where
  width := width
  height := height
  colorBuf := fun _ _ => ⟨0, 0, 0, 255⟩
  background := ⟨0, 0, 0, 255⟩
  current := ⟨255, 255, 255, 255⟩
  depthBuf := fun _ _ => ⊤

/-- `Framebuffer::clear`: color surface reset to the background color,
depth surface refilled with `f32::INFINITY`. -/
def Framebuffer.clear (fb : Framebuffer) : Framebuffer :=
  { fb with
    colorBuf := fun _ _ => fb.background
    depthBuf := fun _ _ => ⊤ }

/-- `Framebuffer::point`: bounds check, then strict depth test; on
success the depth is stored and the clamped, quantized color written. -/
def Framebuffer.point (fb : Framebuffer) (x y : ℤ) (color : Vec3) (depth : ℚ) :
    Framebuffer :=
  if 0 ≤ x ∧ x < fb.width ∧ 0 ≤ y ∧ y < fb.height then
    if (depth : WithTop ℚ) < fb.depthBuf x y then
      { fb with
        depthBuf := fun x' y' =>
          if x' = x ∧ y' = y then (depth : WithTop ℚ) else fb.depthBuf x' y'
        colorBuf := fun x' y' =>
          if x' = x ∧ y' = y then
            ⟨chan8 color.x, chan8 color.y, chan8 color.z, 255⟩
          else fb.colorBuf x' y' }
    else fb
  else fb

/-- A pending `point` call: `(x, y, color, depth)`. -/
def PixelWrite : Type := ℤ × ℤ × Vec3 × ℚ

/-- A finite sequence of `point` calls, applied in order. -/
def applyWrites (fb : Framebuffer) (ws : List PixelWrite) : Framebuffer :=
  ws.foldl (fun fb w => fb.point w.1 w.2.1 w.2.2.1 w.2.2.2) fb

/-- One linear-interpolation step `a * (1.0 - t) + b * t`, as written at
each corner blend of `noise3d`. -/
def mix (a b t : ℚ) : ℚ :=
  a * (1 - t) + b * t

/-- `hash` from src/ship/src/shaders.rs:
`((n * 12.9898).sin() * 43758.5453).fract()`. -/
def hash (ops : FOps) (n : ℚ) : ℚ :=
  fract (ops.sinf (n * 12.9898) * 43758.5453)

/-- `noise3d` from src/ship/src/shaders.rs: trilinear blend, with
smoothstep-cubic easing, of the hashed lattice corners around `p`. -/
def noise3d (ops : FOps) (p : Vec3) : ℚ :=
  let i : Vec3 := ⟨((⌊p.x⌋ : ℤ) : ℚ), ((⌊p.y⌋ : ℤ) : ℚ), ((⌊p.z⌋ : ℤ) : ℚ)⟩
  let f : Vec3 := ⟨fract p.x, fract p.y, fract p.z⟩
  let u : Vec3 := ⟨f.x * f.x * (3 - 2 * f.x), f.y * f.y * (3 - 2 * f.y),
    f.z * f.z * (3 - 2 * f.z)⟩
  let n000 := hash ops (i.x + i.y * 57 + i.z * 113)
  let n100 := hash ops (i.x + 1 + i.y * 57 + i.z * 113)
  let n010 := hash ops (i.x + (i.y + 1) * 57 + i.z * 113)
  let n110 := hash ops (i.x + 1 + (i.y + 1) * 57 + i.z * 113)
  let n001 := hash ops (i.x + i.y * 57 + (i.z + 1) * 113)
  let n101 := hash ops (i.x + 1 + i.y * 57 + (i.z + 1) * 113)
  let n011 := hash ops (i.x + (i.y + 1) * 57 + (i.z + 1) * 113)
  let n111 := hash ops (i.x + 1 + (i.y + 1) * 57 + (i.z + 1) * 113)
  let nx00 := mix n000 n100 u.x
  let nx10 := mix n010 n110 u.x
  let nx01 := mix n001 n101 u.x
  let nx11 := mix n011 n111 u.x
  let nxy0 := mix nx00 nx10 u.y
  let nxy1 := mix nx01 nx11 u.y
  mix nxy0 nxy1 u.z

/-- `fbm` from src/ship/src/shaders.rs: octave loop accumulating
`(value, amplitude, frequency)`. -/
def fbm (ops : FOps) (p : Vec3) (octaves : ℤ) : ℚ :=
  ((List.range octaves.toNat).foldl
    (fun (acc : ℚ × ℚ × ℚ) _ =>
      let value := acc.1
      let amplitude := acc.2.1
      let frequency := acc.2.2
      (value + noise3d ops ⟨p.x * frequency, p.y * frequency, p.z * frequency⟩ *
        amplitude, amplitude * 0.5, frequency * 2))
    ((0 : ℚ), (0.5 : ℚ), (1 : ℚ))).1

/-- `turbulence` from src/ship/src/shaders.rs: like `fbm`, but each
octave contributes the absolute value of the noise sample. -/
def turbulence (ops : FOps) (p : Vec3) (octaves : ℤ) : ℚ :=
  ((List.range octaves.toNat).foldl
    (fun (acc : ℚ × ℚ × ℚ) _ =>
      let value := acc.1
      let amplitude := acc.2.1
      let frequency := acc.2.2
      (value + |noise3d ops ⟨p.x * frequency, p.y * frequency, p.z * frequency⟩| *
        amplitude, amplitude * 0.5, frequency * 2))
    ((0 : ℚ), (0.5 : ℚ), (1 : ℚ))).1

/-- `lerp_color` from src/ship/src/shaders.rs: per-channel linear
interpolation with the parameter clamped via `t.max(0.0).min(1.0)`. -/
def lerp_color (a b : Vec3) (t : ℚ) : Vec3 :=
  let t_clamped := min (max t 0) 1
  ⟨a.x + (b.x - a.x) * t_clamped,
   a.y + (b.y - a.y) * t_clamped,
   a.z + (b.z - a.z) * t_clamped⟩

/-- Squared Euclidean length of a `Vec3`. -/
def sqLen (v : Vec3) : ℚ :=
  v.x * v.x + v.y * v.y + v.z * v.z

/-- Modelled from the spec: `Vector3::normalize` comes from the raylib
dependency, which is not under src/; §7(c) requires zero-length inputs
to be guarded with an explicit fallback rather than producing NaN/Inf.
raylib computes the length and substitutes 1 when it is zero;
`normDivisor` is that guarded divisor. -/
def normDivisor (ops : FOps) (v : Vec3) : ℚ :=
  let length := ops.sqrtf (sqLen v)
  if length = 0 then 1 else length

/-- Modelled from the spec: the guarded `Vector3::normalize`
(`ilength = 1.0 / length` after the zero-length fallback). -/
def safeNormalize (ops : FOps) (v : Vec3) : Vec3 :=
  let ilength := 1 / normDivisor ops v
  ⟨v.x * ilength, v.y * ilength, v.z * ilength⟩

/-- `calculate_lighting` from src/ship/src/shaders.rs: Lambertian
diffuse and Blinn-Phong specular (exponent 32) with all vectors passed
through the guarded normalize. -/
def calculate_lighting (ops : FOps) (normal light_dir view_dir : Vec3) : ℚ × ℚ :=
  let n := safeNormalize ops normal
  let l := safeNormalize ops light_dir
  let v := safeNormalize ops view_dir
  let diffuse := max (n.x * l.x + n.y * l.y + n.z * l.z) 0
  let h : Vec3 := ⟨(l.x + v.x) * 0.5, (l.y + v.y) * 0.5, (l.z + v.z) * 0.5⟩
  let h_norm := safeNormalize ops h
  let specular := (max (n.x * h_norm.x + n.y * h_norm.y + n.z * h_norm.z) 0) ^ (32 : ℕ)
  (diffuse, specular)

/-- `rotate_position` from src/ship/src/shaders.rs: rotation about the
y-axis by `time * speed`. -/
def rotate_position (ops : FOps) (pos : Vec3) (time speed : ℚ) : Vec3 :=
  let angle := time * speed
  let cos_a := ops.cosf angle
  let sin_a := ops.sinf angle
  ⟨pos.x * cos_a - pos.z * sin_a, pos.y, pos.x * sin_a + pos.z * cos_a⟩

/-- A trivial instantiation of the transcendental primitives, used to
evaluate the development at concrete inputs. -/
def opsZero : FOps :=
  ⟨fun _ => 0, fun _ => 0, fun _ _ => 0, fun _ => 0⟩

/-- `Vertex` (vertex.rs is not under src/; the fields are exactly those
read and written by `vertex_shader` in src/ship/src/shaders.rs, §3 of
the spec). -/
structure Vertex where
  position : Vec3
  normal : Vec3
  tex_coords : ℚ × ℚ
  color : Vec3
  transformed_position : Vec3
  transformed_normal : Vec3

/-- `Uniforms` from src/ship/src/main.rs. -/
structure Uniforms where
  model_matrix : Mat4
  view_matrix : Mat4
  projection_matrix : Mat4
  viewport_matrix : Mat4
  time : ℚ
  dt : ℚ
  planet_type : ℤ
  render_type : ℤ

/-- Modelled from the spec: `multiply_matrix_vector4` lives in the
missing matrix.rs; §4.2–4.3 of the spec describe the standard
homogeneous matrix–vector application, used here for every transform
stage. -/
def multiply_matrix_vector4 (m : Mat4) (v : Vec4) : Vec4 :=
  ⟨m 0 0 * v.x + m 0 1 * v.y + m 0 2 * v.z + m 0 3 * v.w,
   m 1 0 * v.x + m 1 1 * v.y + m 1 2 * v.z + m 1 3 * v.w,
   m 2 0 * v.x + m 2 1 * v.y + m 2 2 * v.z + m 2 3 * v.w,
   m 3 0 * v.x + m 3 1 * v.y + m 3 2 * v.z + m 3 3 * v.w⟩

/-- `transform_normal` from src/ship/src/shaders.rs: the normal is
extended with `w = 0`, transformed by the model matrix only, and
re-normalized through the guarded normalize. -/
def transform_normal (ops : FOps) (normal : Vec3) (model_matrix : Mat4) : Vec3 :=
  let normal_vec4 : Vec4 := ⟨normal.x, normal.y, normal.z, 0⟩
  let transformed := multiply_matrix_vector4 model_matrix normal_vec4
  safeNormalize ops ⟨transformed.x, transformed.y, transformed.z⟩

/-- The geometry-variant substitution at the start of `vertex_shader`:
`render_type = 1` builds the procedural ring annulus, `render_type = 2`
the orbiting moon offset, anything else leaves the position unchanged
(homogenized with `w = 1`). -/
def positionVec4 (ops : FOps) (vertex : Vertex) (uniforms : Uniforms) : Vec4 :=
  if uniforms.render_type = 1 then
    let angle := ops.atan2f vertex.position.x vertex.position.z
    let inner_radius : ℚ := 1.8
    let outer_radius : ℚ := 2.8
    let ring_width := outer_radius - inner_radius
    let radius := inner_radius + (vertex.position.y + 1) * 0.5 * ring_width
    ⟨radius * ops.cosf angle, vertex.position.z * 0.05, radius * ops.sinf angle, 1⟩
  else if uniforms.render_type = 2 then
    let moon_orbit_time := uniforms.time * 0.3
    let moon_distance : ℚ := 4.5
    let moon_inclination : ℚ := 0.2
    let moon_x := moon_distance * ops.cosf moon_orbit_time
    let moon_z := moon_distance * ops.sinf moon_orbit_time
    let moon_y := ops.sinf (moon_orbit_time * 2) * moon_inclination
    let moon_scale : ℚ := 0.25
    ⟨moon_x + vertex.position.x * moon_scale, moon_y + vertex.position.y * moon_scale,
     moon_z + vertex.position.z * moon_scale, 1⟩
  else
    ⟨vertex.position.x, vertex.position.y, vertex.position.z, 1⟩

/-- The clip-space position computed by `vertex_shader`:
model, then view, then projection. -/
def clipPositionOf (ops : FOps) (vertex : Vertex) (uniforms : Uniforms) : Vec4 :=
  let world_position := multiply_matrix_vector4 uniforms.model_matrix
    (positionVec4 ops vertex uniforms)
  let view_position := multiply_matrix_vector4 uniforms.view_matrix world_position
  multiply_matrix_vector4 uniforms.projection_matrix view_position

/-- The perspective divide of `vertex_shader`: divide by `w` when it is
nonzero, otherwise pass the clip coordinates through unchanged. -/
def perspectiveDivide (clip_position : Vec4) : Vec3 :=
  if clip_position.w ≠ 0 then
    ⟨clip_position.x / clip_position.w, clip_position.y / clip_position.w,
     clip_position.z / clip_position.w⟩
  else
    ⟨clip_position.x, clip_position.y, clip_position.z⟩

/-- `vertex_shader` from src/ship/src/shaders.rs. -/
def vertex_shader (ops : FOps) (vertex : Vertex) (uniforms : Uniforms) : Vertex :=
  let clip_position := clipPositionOf ops vertex uniforms
  let ndc := perspectiveDivide clip_position
  let ndc_vec4 : Vec4 := ⟨ndc.x, ndc.y, ndc.z, 1⟩
  let screen_position := multiply_matrix_vector4 uniforms.viewport_matrix ndc_vec4
  { position := vertex.position
    normal := vertex.normal
    tex_coords := vertex.tex_coords
    color := vertex.color
    transformed_position := ⟨screen_position.x, screen_position.y, screen_position.z⟩
    transformed_normal := transform_normal ops vertex.normal uniforms.model_matrix }

/-- The all-zero matrix, vertex, and uniforms, for concrete
evaluation. -/
def mZero : Mat4 := fun _ _ => 0

/-- The all-ones matrix. -/
def mOne : Mat4 := fun _ _ => 1

/-- A zero vertex. -/
def vZero : Vertex :=
  ⟨⟨0, 0, 0⟩, ⟨0, 0, 0⟩, (0, 0), ⟨0, 0, 0⟩, ⟨0, 0, 0⟩, ⟨0, 0, 0⟩⟩

/-- Zero uniforms (all matrices zero). -/
def uZero : Uniforms :=
  ⟨mZero, mZero, mZero, mZero, 0, 0, 0, 0⟩

/-- Uniforms whose matrices are all ones. -/
def uOne : Uniforms :=
  ⟨mOne, mOne, mOne, mOne, 0, 0, 0, 0⟩

/-- `rocky_planet_shader` from src/ship/src/shaders.rs. -/
def rocky_planet_shader (ops : FOps) (pos : Vec3) (time : ℚ) (normal : Vec3) : Vec3 :=
  let rotated_pos := rotate_position ops pos time 0.2
  let base_noise := fbm ops rotated_pos 5
  let crater_scale : ℚ := 8.0
  let crater_noise := turbulence ops ⟨rotated_pos.x * crater_scale,
    rotated_pos.y * crater_scale, rotated_pos.z * crater_scale⟩ 3
  let mountain_scale : ℚ := 3.0
  let mountain_noise := fbm ops ⟨rotated_pos.x * mountain_scale,
    rotated_pos.y * mountain_scale, rotated_pos.z * mountain_scale⟩ 4
  let detail_noise := noise3d ops ⟨rotated_pos.x * 12, rotated_pos.y * 12,
    rotated_pos.z * 12⟩
  let deep_color : Vec3 := ⟨0.3, 0.15, 0.1⟩
  let mid_color : Vec3 := ⟨0.5, 0.3, 0.2⟩
  let high_color : Vec3 := ⟨0.6, 0.45, 0.3⟩
  let peak_color : Vec3 := ⟨0.7, 0.6, 0.5⟩
  let elevation := (base_noise + mountain_noise) * 0.5
  let crater_factor := max (crater_noise - 0.6) 0 * 2
  let color :=
    if elevation > 0.7 then lerp_color high_color peak_color ((elevation - 0.7) * 3.33)
    else if elevation > 0.4 then lerp_color mid_color high_color ((elevation - 0.4) * 3.33)
    else lerp_color deep_color mid_color (elevation * 2.5)
  let color := lerp_color color ⟨0.2, 0.1, 0.05⟩ (crater_factor * 0.5)
  let color := color * (0.9 + detail_noise * 0.2)
  let light_dir : Vec3 := ⟨1.0, 0.5, 1.0⟩
  let view_dir : Vec3 := ⟨0.0, 0.0, 1.0⟩
  let ds := calculate_lighting ops normal light_dir view_dir
  let ambient : ℚ := 0.15
  color * (ambient + ds.1 * 0.8) + ⟨ds.2 * 0.1, ds.2 * 0.1, ds.2 * 0.1⟩

/-- `gas_giant_shader` from src/ship/src/shaders.rs. -/
def gas_giant_shader (ops : FOps) (pos : Vec3) (time : ℚ) (normal : Vec3) : Vec3 :=
  let rotated_pos := rotate_position ops pos time 0.8
  let lat := rotated_pos.y
  let lon := ops.atan2f rotated_pos.x rotated_pos.z
  let band_freq : ℚ := 8.0
  let band_pattern := ops.sinf (lat * band_freq + time * 0.3)
  let turb_scale : ℚ := 4.0
  let turbulence_val := fbm ops ⟨lon * turb_scale, lat * turb_scale * 0.5,
    time * 0.1⟩ 4
  let storm_center : Vec3 := ⟨0.3, -0.2, 0.0⟩
  let dist_to_storm := ops.sqrtf ((rotated_pos.x - storm_center.x) ^ (2 : ℕ) +
    (rotated_pos.y - storm_center.y) ^ (2 : ℕ) +
    (rotated_pos.z - storm_center.z) ^ (2 : ℕ))
  let storm_factor := max (1 - min (dist_to_storm / 0.4) 1) 0
  let storm_swirl := ops.sinf (lon * 6 + turbulence_val * 3 + time) * storm_factor
  let cloud_noise := noise3d ops ⟨lon * 16, lat * 12, time * 0.05⟩
  let base_cream : Vec3 := ⟨0.9, 0.85, 0.7⟩
  let dark_band : Vec3 := ⟨0.6, 0.45, 0.3⟩
  let orange_band : Vec3 := ⟨0.9, 0.6, 0.3⟩
  let storm_red : Vec3 := ⟨0.8, 0.3, 0.2⟩
  let white_cloud : Vec3 := ⟨0.95, 0.95, 0.95⟩
  let band_mix := (band_pattern + turbulence_val * 0.5 + 1) * 0.5
  let color :=
    if band_mix > 0.65 then lerp_color base_cream orange_band ((band_mix - 0.65) * 2.86)
    else if band_mix > 0.35 then base_cream
    else lerp_color dark_band base_cream (band_mix * 2.86)
  let color := lerp_color color storm_red (storm_factor * (0.6 + storm_swirl * 0.2))
  let cloud_factor := (cloud_noise * 0.5 + 0.5) ^ (2 : ℕ) * 0.4
  let color := lerp_color color white_cloud cloud_factor
  let light_dir : Vec3 := ⟨1.0, 0.3, 1.0⟩
  let view_dir : Vec3 := ⟨0.0, 0.0, 1.0⟩
  let ds := calculate_lighting ops normal light_dir view_dir
  let ambient : ℚ := 0.3
  color * (ambient + ds.1 * 0.7)

/-- `ocean_planet_shader` from src/ship/src/shaders.rs. -/
def ocean_planet_shader (ops : FOps) (pos : Vec3) (time : ℚ) (normal : Vec3) : Vec3 :=
  let rotated_pos := rotate_position ops pos time 0.4
  let lat := rotated_pos.y
  let lon := ops.atan2f rotated_pos.x rotated_pos.z
  let terrain_noise := fbm ops rotated_pos 4
  let is_land := decide (terrain_noise > 0.35)
  let ocean_depth := fbm ops ⟨rotated_pos.x * 4, rotated_pos.y * 4,
    rotated_pos.z * 4 + time * 0.1⟩ 3
  let vegetation := fbm ops ⟨rotated_pos.x * 6, rotated_pos.y * 6,
    rotated_pos.z * 6⟩ 3
  let cloud_coverage := fbm ops ⟨lon * 8, lat * 6 + time * 0.05, time * 0.02⟩ 4
  let deep_ocean : Vec3 := ⟨0.05, 0.15, 0.4⟩
  let shallow_ocean : Vec3 := ⟨0.1, 0.4, 0.7⟩
  let beach : Vec3 := ⟨0.8, 0.75, 0.6⟩
  let grass : Vec3 := ⟨0.2, 0.6, 0.2⟩
  let forest : Vec3 := ⟨0.1, 0.4, 0.15⟩
  let ice : Vec3 := ⟨0.9, 0.95, 1.0⟩
  let cloud_white : Vec3 := ⟨1.0, 1.0, 1.0⟩
  let color :=
    if is_land then
      if terrain_noise > 0.5 then
        if vegetation > 0.4 then forest else grass
      else beach
    else
      if ocean_depth > 0.4 then shallow_ocean else deep_ocean
  let ice_threshold : ℚ := 0.65
  let color :=
    if |lat| > ice_threshold then
      lerp_color color ice (min ((|lat| - ice_threshold) / (1 - ice_threshold)) 1)
    else color
  let cloud_alpha := min (max (cloud_coverage - 0.4) 0 * 2) 0.7
  let color := lerp_color color cloud_white cloud_alpha
  let light_dir : Vec3 := ⟨1.0, 0.5, 0.8⟩
  let view_dir : Vec3 := ⟨0.0, 0.0, 1.0⟩
  let ds := calculate_lighting ops normal light_dir view_dir
  let spec_strength : ℚ := if !is_land then 0.4 else 0.05
  let ambient : ℚ := 0.2
  color * (ambient + ds.1 * 0.75) +
    ⟨ds.2 * spec_strength, ds.2 * spec_strength, ds.2 * spec_strength⟩

/-- `volcanic_planet_shader` from src/ship/src/shaders.rs. -/
def volcanic_planet_shader (ops : FOps) (pos : Vec3) (time : ℚ) (normal : Vec3) : Vec3 :=
  let rotated_pos := rotate_position ops pos time 0.15
  let lava_veins := turbulence ops ⟨rotated_pos.x * 6, rotated_pos.y * 6,
    rotated_pos.z * 6 + time * 0.5⟩ 4
  let pulse := ops.sinf (time * 2) * 0.5 + 0.5
  let activity := lava_veins * pulse
  let eruption_scale : ℚ := 3.0
  let eruption_noise := noise3d ops ⟨rotated_pos.x * eruption_scale,
    rotated_pos.y * eruption_scale + time * 3, rotated_pos.z * eruption_scale⟩
  let cracks := turbulence ops ⟨rotated_pos.x * 10, rotated_pos.y * 10,
    rotated_pos.z * 10⟩ 2
  let black_rock : Vec3 := ⟨0.1, 0.05, 0.05⟩
  let cooling_lava : Vec3 := ⟨0.4, 0.1, 0.05⟩
  let hot_lava : Vec3 := ⟨0.9, 0.3, 0.1⟩
  let white_hot : Vec3 := ⟨1.0, 0.9, 0.6⟩
  let color :=
    if activity > 0.75 then lerp_color hot_lava white_hot ((activity - 0.75) * 4)
    else if activity > 0.5 then lerp_color cooling_lava hot_lava ((activity - 0.5) * 4)
    else if activity > 0.3 then lerp_color black_rock cooling_lava ((activity - 0.3) * 5)
    else black_rock
  let color :=
    if cracks > 0.7 then
      let crack_glow := (cracks - 0.7) * 3.33
      lerp_color color ⟨0.8, 0.2, 0.05⟩ (crack_glow * 0.5)
    else color
  let color :=
    if eruption_noise > 0.8 then
      let erupt_intensity := (eruption_noise - 0.8) * 5
      lerp_color color white_hot (erupt_intensity * pulse)
    else color
  let light_dir : Vec3 := ⟨1.0, 0.5, 1.0⟩
  let view_dir : Vec3 := ⟨0.0, 0.0, 1.0⟩
  let ds := calculate_lighting ops normal light_dir view_dir
  let self_illum := activity * 0.5
  let ambient : ℚ := 0.1
  color * (ambient + ds.1 * 0.4 + self_illum)

/-- `crystal_planet_shader` from src/ship/src/shaders.rs. -/
def crystal_planet_shader (ops : FOps) (pos : Vec3) (time : ℚ) (normal : Vec3) : Vec3 :=
  let rotated_pos := rotate_position ops pos time 0.6
  let crystal_scale : ℚ := 6.0
  let crystal_pattern := fbm ops ⟨rotated_pos.x * crystal_scale,
    rotated_pos.y * crystal_scale, rotated_pos.z * crystal_scale⟩ 3
  let hue_shift := ops.sinf (crystal_pattern * 10 + time * 0.5) * 0.5 + 0.5
  let internal_structure := fbm ops ⟨rotated_pos.x * 4, rotated_pos.y * 4,
    rotated_pos.z * 4⟩ 3
  let energy_pulse := (ops.sinf (time * 1.5) * 0.5 + 0.5) * 0.3
  let crystal_blue : Vec3 := ⟨0.3, 0.6, 1.0⟩
  let crystal_purple : Vec3 := ⟨0.7, 0.3, 1.0⟩
  let crystal_cyan : Vec3 := ⟨0.2, 0.9, 0.9⟩
  let crystal_white : Vec3 := ⟨0.95, 0.95, 1.0⟩
  let color :=
    if hue_shift > 0.66 then lerp_color crystal_blue crystal_cyan ((hue_shift - 0.66) * 3)
    else if hue_shift > 0.33 then lerp_color crystal_purple crystal_blue ((hue_shift - 0.33) * 3)
    else lerp_color crystal_cyan crystal_purple (hue_shift * 3)
  let color :=
    if internal_structure > 0.6 then
      lerp_color color crystal_white ((internal_structure - 0.6) * 2.5)
    else color
  let light_dir : Vec3 := ⟨1.0, 0.5, 1.0⟩
  let view_dir : Vec3 := ⟨0.0, 0.0, 1.0⟩
  let ds := calculate_lighting ops normal light_dir view_dir
  let ambient : ℚ := 0.3
  color * (ambient + ds.1 * 0.5) + ⟨ds.2 * 0.8, ds.2 * 0.8, ds.2 * 0.8⟩ +
    color * energy_pulse

/-- `ship_shader` from src/ship/src/shaders.rs. -/
def ship_shader (ops : FOps) (pos : Vec3) (_time : ℚ) (normal : Vec3) : Vec3 :=
  let light_dir : Vec3 := ⟨1.0, 1.0, 1.0⟩
  let view_dir : Vec3 := ⟨0.0, 0.0, 1.0⟩
  let ds := calculate_lighting ops normal light_dir view_dir
  let base_color : Vec3 :=
    if ops.sinf (pos.y * 10) > 0 then ⟨0.8, 0.8, 0.8⟩ else ⟨0.2, 0.2, 0.8⟩
  let ambient : ℚ := 0.2
  base_color * (ambient + ds.1) + ⟨ds.2, ds.2, ds.2⟩

/-- `Fragment` (fragment.rs is not under src/; the fields are exactly
those read by the fragment loops in src/ship/src/main.rs and
src/ship/src/shaders.rs, §3 of the spec). -/
structure Fragment where
  position : Vec3
  world_position : Vec3
  normal : Vec3
  depth : ℚ

/-- The final per-channel clamp of `fragment_shader`:
`c.max(0.0).min(1.0)` on each channel. -/
def clamp3 (c : Vec3) : Vec3 :=
  ⟨clamp01 c.x, clamp01 c.y, clamp01 c.z⟩

/-- `fragment_shader` from src/ship/src/shaders.rs: total dispatch on
`planet_type`, then the final clamp into `[0,1]³`. -/
def fragment_shader (ops : FOps) (fragment : Fragment) (uniforms : Uniforms) : Vec3 :=
  let pos := fragment.world_position
  let time := uniforms.time
  let planet_type := uniforms.planet_type
  let normal := fragment.normal
  let color :=
    if planet_type = 0 then rocky_planet_shader ops pos time normal
    else if planet_type = 1 then gas_giant_shader ops pos time normal
    else if planet_type = 2 then ocean_planet_shader ops pos time normal
    else if planet_type = 3 then volcanic_planet_shader ops pos time normal
    else if planet_type = 4 then crystal_planet_shader ops pos time normal
    else if planet_type = 10 then ship_shader ops pos time normal
    else ⟨0.5, 0.5, 0.5⟩
  clamp3 color

/-- A zero fragment, for concrete evaluation. -/
def fragZero : Fragment :=
  ⟨⟨0, 0, 0⟩, ⟨0, 0, 0⟩, ⟨0, 0, 0⟩, 0⟩

/-- Uniforms with the unknown material tag 7. -/
def uGray : Uniforms :=
  ⟨mZero, mZero, mZero, mZero, 0, 0, 7, 0⟩

/-- `Light` (light.rs is not under src/; §3 of the spec: a single
point-light position). -/
structure Light where
  position : Vec3

/-- The type of `triangle::triangle` (triangle.rs is not under src/):
one triangle plus the light, producing a finite fragment list (§4.5 of
the spec).  The render entry points below are parametric in it, so
everything proved about them holds for every rasterizer. -/
def Rasterizer : Type :=
  Vertex → Vertex → Vertex → Light → List Fragment

/-- The triangle-grouping loop shared by `render_body` (main.rs),
`render_rings` and `render_moon` (shaders.rs):
`for i in (0..len).step_by(3) { if i + 2 < len { push triple } }` —
consecutive complete triples in order; trailing leftovers produce
nothing. -/
def groupTriples {α : Type} : List α → List (α × α × α)
  | a :: b :: c :: rest => (a, b, c) :: groupTriples rest
  | _ => []

/-- Flattening a triple list back onto a tail, used to state that
grouping is exactly the consecutive, in-order partition. -/
def flattenTriples {α : Type} (ts : List (α × α × α)) (tail : List α) : List α :=
  ts.foldr (fun t acc => t.1 :: t.2.1 :: t.2.2 :: acc) tail

/-- `render_body` from src/ship/src/main.rs: vertex stage, triangle
grouping, rasterization, fragment shading, depth-tested writes. -/
def render_body (ops : FOps) (tri : Rasterizer) (framebuffer : Framebuffer)
    (uniforms : Uniforms) (vertex_array : List Vertex) (light : Light) :
    Framebuffer :=
  let transformed_vertices := vertex_array.map fun v => vertex_shader ops v uniforms
  let triangles := groupTriples transformed_vertices
  let fragments := triangles.foldl (fun acc t => acc ++ tri t.1 t.2.1 t.2.2 light) []
  fragments.foldl (fun fb fragment =>
    let final_color := fragment_shader ops fragment uniforms
    fb.point (truncQ fragment.position.x) (truncQ fragment.position.y)
      final_color fragment.depth) framebuffer

/-- The dedicated per-fragment ring shading inside `render_rings`
(banding from the world-space radius, periodic gaps, fixed-normal
lighting). -/
def ringFragmentColor (ops : FOps) (fragment : Fragment) : Vec3 :=
  let radius := ops.sqrtf (fragment.world_position.x ^ (2 : ℕ) +
    fragment.world_position.z ^ (2 : ℕ))
  let band_pattern := ops.sinf (radius * 15) * 0.5 + 0.5
  let ring_color1 : Vec3 := ⟨0.8, 0.7, 0.6⟩
  let ring_color2 : Vec3 := ⟨0.6, 0.5, 0.4⟩
  let gap_color : Vec3 := ⟨0.3, 0.2, 0.15⟩
  let gap := decide (ops.sinf (radius * 20) * 0.5 + 0.5 < 0.2)
  let color := if gap then gap_color * (0.5 : ℚ)
    else lerp_color ring_color1 ring_color2 band_pattern
  let ring_normal : Vec3 := ⟨0.0, 1.0, 0.0⟩
  let light_dir : Vec3 := ⟨1.0, 1.0, 1.0⟩
  let view_dir : Vec3 := ⟨0.0, 0.0, 1.0⟩
  let ds := calculate_lighting ops ring_normal light_dir view_dir
  color * (0.3 + ds.1 * 0.7)

/-- `render_rings` from src/ship/src/shaders.rs: clones the caller's
uniforms, forces `render_type = 1` on the clone, then runs the full
pass with the dedicated ring fragment shading. -/
def render_rings (ops : FOps) (tri : Rasterizer) (framebuffer : Framebuffer)
    (uniforms : Uniforms) (vertex_array : List Vertex) (light : Light) :
    Framebuffer :=
  let ring_uniforms := { uniforms with render_type := 1 }
  let transformed_vertices := vertex_array.map fun v => vertex_shader ops v ring_uniforms
  let triangles := groupTriples transformed_vertices
  let fragments := triangles.foldl (fun acc t => acc ++ tri t.1 t.2.1 t.2.2 light) []
  fragments.foldl (fun fb fragment =>
    fb.point (truncQ fragment.position.x) (truncQ fragment.position.y)
      (ringFragmentColor ops fragment) fragment.depth) framebuffer

/-- The dedicated per-fragment moon shading inside `render_moon`
(turbulence-based crater darkening, world-position normal lighting). -/
def moonFragmentColor (ops : FOps) (fragment : Fragment) : Vec3 :=
  let crater_noise := turbulence ops ⟨fragment.world_position.x * 8,
    fragment.world_position.y * 8, fragment.world_position.z * 8⟩ 3
  let base_color : Vec3 := ⟨0.6, 0.6, 0.6⟩
  let crater_color : Vec3 := ⟨0.4, 0.4, 0.4⟩
  let color := if crater_noise > 0.7 then
      lerp_color base_color crater_color ((crater_noise - 0.7) * 3.33)
    else base_color
  let moon_normal := fragment.world_position
  let light_dir : Vec3 := ⟨1.0, 1.0, 1.0⟩
  let view_dir : Vec3 := ⟨0.0, 0.0, 1.0⟩
  let ds := calculate_lighting ops moon_normal light_dir view_dir
  color * (0.1 + ds.1 * 0.9)

/-- `render_moon` from src/ship/src/shaders.rs: clones the caller's
uniforms, forces `render_type = 2` on the clone, then runs the full
pass with the dedicated moon fragment shading. -/
def render_moon (ops : FOps) (tri : Rasterizer) (framebuffer : Framebuffer)
    (uniforms : Uniforms) (vertex_array : List Vertex) (light : Light) :
    Framebuffer :=
  let moon_uniforms := { uniforms with render_type := 2 }
  let transformed_vertices := vertex_array.map fun v => vertex_shader ops v moon_uniforms
  let triangles := groupTriples transformed_vertices
  let fragments := triangles.foldl (fun acc t => acc ++ tri t.1 t.2.1 t.2.2 light) []
  fragments.foldl (fun fb fragment =>
    fb.point (truncQ fragment.position.x) (truncQ fragment.position.y)
      (moonFragmentColor ops fragment) fragment.depth) framebuffer

/-- A zero light, for concrete evaluation. -/
def lightZero : Light :=
  ⟨⟨0, 0, 0⟩⟩

/-- Uniforms equal to `uZero` except for `render_type = 5`. -/
def uFive : Uniforms :=
  ⟨mZero, mZero, mZero, mZero, 0, 0, 0, 5⟩

lemma point_depthBuf_le (fb : Framebuffer) (x0 y0 : ℤ) (c : Vec3) (d : ℚ)
    (x y : ℤ) : (fb.point x0 y0 c d).depthBuf x y ≤ fb.depthBuf x y := by
  unfold Framebuffer.point
  split_ifs with h1 h2
  · by_cases hxy : x = x0 ∧ y = y0
    · simp only [hxy, if_pos, and_self]
      simp only [hxy.1, hxy.2] at *
      exact le_of_lt h2
    · simp [hxy]
  · exact le_refl _
  · exact le_refl _

lemma applyWrites_depthBuf_le (ws : List PixelWrite) (fb : Framebuffer)
    (x y : ℤ) : (applyWrites fb ws).depthBuf x y ≤ fb.depthBuf x y := by
  induction ws generalizing fb with
  | nil => exact le_refl _
  | cons w ws ih =>
    calc (applyWrites (fb.point w.1 w.2.1 w.2.2.1 w.2.2.2) ws).depthBuf x y
        ≤ (fb.point w.1 w.2.1 w.2.2.1 w.2.2.2).depthBuf x y := ih _
      _ ≤ fb.depthBuf x y := point_depthBuf_le fb w.1 w.2.1 w.2.2.1 w.2.2.2 x y

lemma applyWrites_append (fb : Framebuffer) (ws₁ ws₂ : List PixelWrite) :
    applyWrites fb (ws₁ ++ ws₂) = applyWrites (applyWrites fb ws₁) ws₂ :=
  List.foldl_append _ _ _ _

/-- Claim C1: `point(x, y, color, depth)` is a no-op outside
`[0,width)×[0,height)`; inside, the write takes effect iff `depth` is
strictly less than the stored depth, in which case the stored depth
becomes `depth` and the color surface receives the clamped, quantized
color; an equal depth changes nothing. -/
theorem point_spec (fb : Framebuffer) (x y : ℤ) (color : Vec3) (depth : ℚ) :
    (¬ (0 ≤ x ∧ x < fb.width ∧ 0 ≤ y ∧ y < fb.height) →
      fb.point x y color depth = fb) ∧
    ((0 ≤ x ∧ x < fb.width ∧ 0 ≤ y ∧ y < fb.height) →
      (((depth : WithTop ℚ) < fb.depthBuf x y →
          (fb.point x y color depth).depthBuf x y = (depth : WithTop ℚ) ∧
          (fb.point x y color depth).colorBuf x y =
            ⟨chan8 color.x, chan8 color.y, chan8 color.z, 255⟩) ∧
        (¬ (depth : WithTop ℚ) < fb.depthBuf x y →
          fb.point x y color depth = fb) ∧
        ((depth : WithTop ℚ) = fb.depthBuf x y →
          fb.point x y color depth = fb))) := by
  refine ⟨fun h => ?_, fun h => ⟨fun hd => ?_, fun hd => ?_, fun hd => ?_⟩⟩
  · simp [Framebuffer.point, h]
  · simp [Framebuffer.point, h, hd]
  · simp [Framebuffer.point, h, hd]
  · have : ¬ (depth : WithTop ℚ) < fb.depthBuf x y := by
      rw [← hd]; exact lt_irrefl _
    simp [Framebuffer.point, h, this]

/-- Witness for C1 at a concrete framebuffer and write. -/
theorem point_spec_witness :
    (0 ≤ (2 : ℤ) ∧ (2 : ℤ) < 10 ∧ 0 ≤ (3 : ℤ) ∧ (3 : ℤ) < 10) ∧
    ((Framebuffer.new 10 10).point 2 3 ⟨2, -1, 1/2⟩ 5).depthBuf 2 3 =
      ((5 : ℚ) : WithTop ℚ) ∧
    ((Framebuffer.new 10 10).point 2 3 ⟨2, -1, 1/2⟩ 5).colorBuf 2 3 =
      ⟨255, 0, 127, 255⟩ := by
  have hb : 0 ≤ (2 : ℤ) ∧ (2 : ℤ) < (Framebuffer.new 10 10).width ∧
      0 ≤ (3 : ℤ) ∧ (3 : ℤ) < (Framebuffer.new 10 10).height := by
    refine ⟨by norm_num, ?_, by norm_num, ?_⟩ <;> · show (_ : ℤ) < 10; norm_num
  have hd : ((5 : ℚ) : WithTop ℚ) < (Framebuffer.new 10 10).depthBuf 2 3 := by
    show ((5 : ℚ) : WithTop ℚ) < ⊤
    exact WithTop.coe_lt_top _
  have h := ((point_spec (Framebuffer.new 10 10) 2 3 ⟨2, -1, 1/2⟩ 5).2 hb).1 hd
  refine ⟨⟨by norm_num, by norm_num, by norm_num, by norm_num⟩, h.1, ?_⟩
  rw [h.2]
  simp only [chan8, clamp01, truncQ, ColorU8.mk.injEq]
  norm_num
  decide

/-- Claim C2: across any sequence of `point` calls, the stored depth at
every pixel is monotonically non-increasing: after any further batch of
writes the stored depth is `≤` what it was before the batch. -/
theorem point_depth_monotone (fb : Framebuffer) (ws₁ ws₂ : List PixelWrite)
    (x y : ℤ) :
    (applyWrites fb (ws₁ ++ ws₂)).depthBuf x y ≤
      (applyWrites fb ws₁).depthBuf x y := by
  rw [applyWrites_append]
  exact applyWrites_depthBuf_le ws₂ (applyWrites fb ws₁) x y

/-- Claim C8: after `clear()`, every entry of the depth surface is `+∞`
and every pixel of the color surface is the background color; `clear` is
a total function (always succeeds). -/
theorem clear_spec (fb : Framebuffer) (x y : ℤ) :
    fb.clear.depthBuf x y = ⊤ ∧ fb.clear.colorBuf x y = fb.background :=
  ⟨rfl, rfl⟩

lemma clamp01_mem (q : ℚ) : 0 ≤ clamp01 q ∧ clamp01 q ≤ 1 :=
  ⟨le_min (le_max_right q 0) zero_le_one, min_le_right _ _⟩

lemma clamp01_idem (q : ℚ) : clamp01 (clamp01 q) = clamp01 q := by
  have h := clamp01_mem q
  unfold clamp01 at *
  rw [max_eq_left h.1, min_eq_left h.2]

lemma fract_mem (q : ℚ) : -1 < fract q ∧ fract q < 1 := by
  unfold fract truncQ
  split_ifs with h
  · have h1 : (⌊q⌋ : ℚ) ≤ q := Int.floor_le q
    have h2 : q < ⌊q⌋ + 1 := Int.lt_floor_add_one q
    constructor <;> linarith
  · have h1 : q ≤ ⌈q⌉ := Int.le_ceil q
    have h2 : (⌈q⌉ : ℚ) < q + 1 := Int.ceil_lt_add_one q
    constructor <;> linarith

lemma fract_nonneg_of_nonneg {q : ℚ} (h : 0 ≤ q) : 0 ≤ fract q := by
  unfold fract truncQ
  rw [if_pos h]
  have := Int.floor_le q
  linarith

lemma hash_mem (ops : FOps) (n : ℚ) : -1 < hash ops n ∧ hash ops n < 1 :=
  fract_mem _

lemma mix_mem {a b t : ℚ} (ha : -1 < a ∧ a < 1) (hb : -1 < b ∧ b < 1)
    (ht : 0 ≤ t ∧ t ≤ 1) : -1 < mix a b t ∧ mix a b t < 1 := by
  unfold mix
  rcases eq_or_lt_of_le ht.2 with rfl | h1
  · constructor <;> nlinarith [hb.1, hb.2]
  · constructor
    · nlinarith [mul_pos (by linarith [ha.1] : (0 : ℚ) < 1 + a)
        (by linarith : (0 : ℚ) < 1 - t),
        mul_nonneg (by linarith [hb.1] : (0 : ℚ) ≤ 1 + b) ht.1]
    · nlinarith [mul_pos (by linarith [ha.2] : (0 : ℚ) < 1 - a)
        (by linarith : (0 : ℚ) < 1 - t),
        mul_nonneg (by linarith [hb.2] : (0 : ℚ) ≤ 1 - b) ht.1]

lemma smooth_mem (c : ℚ) (hc : 0 ≤ c) :
    0 ≤ fract c * fract c * (3 - 2 * fract c) ∧
      fract c * fract c * (3 - 2 * fract c) ≤ 1 := by
  have h0 : 0 ≤ fract c := fract_nonneg_of_nonneg hc
  have h1 : fract c < 1 := (fract_mem c).2
  constructor
  · nlinarith [h0, h1]
  · nlinarith [sq_nonneg (1 - fract c), h0, h1]

/-- Counterexample for claim C4: it is not the case that (for every
bounded sine implementation) `hash` lands in `[0,1)` and `noise3d` lands
in `[0,1)`.  Rust's `fract` truncates toward zero, so a negative sine
value produces a negative hash: with a sine returning `-1/2`,
`hash 0 = fract(-21879.27265) = -0.27265 < 0`.  The `f32` sine is
negative on a dense set of inputs (e.g. at the lattice sum `8` reached
by `noise3d`), so the code's hash genuinely takes negative values. -/
theorem hash_range_refuted :
    ¬ (∀ ops : FOps, (∀ t, |ops.sinf t| ≤ 1) →
        (∀ n, 0 ≤ hash ops n ∧ hash ops n < 1) ∧
        (∀ p, 0 ≤ noise3d ops p ∧ noise3d ops p < 1)) := by
  intro h
  have hb : ∀ t : ℚ, |(fun _ : ℚ => (-1/2 : ℚ)) t| ≤ 1 := by
    intro t
    rw [abs_le]
    constructor <;> norm_num
  have h0 := ((h ⟨fun _ => -1/2, fun _ => 0, fun _ _ => 0, fun _ => 0⟩ hb).1 0).1
  have hc : (⌈(-(437585453/20000) : ℚ)⌉ : ℤ) = -21879 := by
    rw [Int.ceil_eq_iff]
    norm_num
  have hv : hash ⟨fun _ => -1/2, fun _ => 0, fun _ _ => 0, fun _ => 0⟩ 0 =
      -5453/20000 := by
    unfold hash fract truncQ
    rw [if_neg (by norm_num)]
    norm_num [hc]
  rw [hv] at h0
  norm_num at h0

/-- Claim C4 (amended): `noise3d` and `hash` are deterministic
(identical inputs give identical outputs), `hash` maps every scalar into
the open interval `(-1, 1)` — not `[0, 1)`, since Rust's
truncation-based `fract` is negative on negative arguments — and for
every point with nonnegative coordinates the `noise3d` output also lies
in `(-1, 1)`. -/
theorem noise_deterministic_range (ops : FOps) (p q : Vec3) (hpq : p = q)
    (hx : 0 ≤ p.x) (hy : 0 ≤ p.y) (hz : 0 ≤ p.z) :
    noise3d ops p = noise3d ops q ∧
    (∀ n m : ℚ, n = m → hash ops n = hash ops m) ∧
    (∀ n, -1 < hash ops n ∧ hash ops n < 1) ∧
    (-1 < noise3d ops p ∧ noise3d ops p < 1) := by
  subst hpq
  refine ⟨rfl, fun n m hnm => by rw [hnm], hash_mem ops, ?_⟩
  simp only [noise3d]
  exact mix_mem
    (mix_mem (mix_mem (hash_mem _ _) (hash_mem _ _) (smooth_mem _ hx))
      (mix_mem (hash_mem _ _) (hash_mem _ _) (smooth_mem _ hx))
      (smooth_mem _ hy))
    (mix_mem (mix_mem (hash_mem _ _) (hash_mem _ _) (smooth_mem _ hx))
      (mix_mem (hash_mem _ _) (hash_mem _ _) (smooth_mem _ hx))
      (smooth_mem _ hy))
    (smooth_mem _ hz)

/-- Witness for the amended C4 at the origin with the trivial
primitives. -/
theorem noise_deterministic_range_witness :
    noise3d opsZero ⟨0, 0, 0⟩ = noise3d opsZero ⟨0, 0, 0⟩ ∧
    (-1 < noise3d opsZero ⟨0, 0, 0⟩ ∧ noise3d opsZero ⟨0, 0, 0⟩ < 1) := by
  have h := noise_deterministic_range opsZero ⟨0, 0, 0⟩ ⟨0, 0, 0⟩ rfl
    (le_refl 0) (le_refl 0) (le_refl 0)
  exact ⟨h.1, h.2.2.2⟩

/-- Claim C9: `lerp_color(a, b, 0) = a` and `lerp_color(a, b, 1) = b`
exactly; for every `t` the parameter is first clamped to `[0,1]` and
the result lies per-channel on the straight line between `a` and `b`. -/
theorem lerp_color_spec (a b : Vec3) (t : ℚ) :
    lerp_color a b 0 = a ∧ lerp_color a b 1 = b ∧
    lerp_color a b t = lerp_color a b (clamp01 t) ∧
    (0 ≤ clamp01 t ∧ clamp01 t ≤ 1 ∧
      lerp_color a b t =
        ⟨a.x + (b.x - a.x) * clamp01 t, a.y + (b.y - a.y) * clamp01 t,
         a.z + (b.z - a.z) * clamp01 t⟩) := by
  refine ⟨?_, ?_, ?_, (clamp01_mem t).1, (clamp01_mem t).2, ?_⟩
  · ext <;> simp [lerp_color]
  · ext <;> simp [lerp_color]
  · have h : min (max (clamp01 t) 0) 1 = clamp01 t := clamp01_idem t
    ext <;> simp only [lerp_color, clamp01] at * <;> rw [h]
  · ext <;> simp [lerp_color, clamp01]

/-- Claim C5: in the vertex stage's perspective divide, whenever the
clip-space `w` is nonzero the normalized device coordinates are
`(x/w, y/w, z/w)`, and whenever `w = 0` the clip coordinates pass
through unchanged (the guard means the division branch is taken only
under `w ≠ 0`, so the stage never divides by zero); the vertex
shader's stored screen position is the viewport transform of exactly
that result. -/
theorem perspective_divide_spec (ops : FOps) (v : Vertex) (u : Uniforms) :
    ((clipPositionOf ops v u).w ≠ 0 →
      perspectiveDivide (clipPositionOf ops v u) =
        ⟨(clipPositionOf ops v u).x / (clipPositionOf ops v u).w,
         (clipPositionOf ops v u).y / (clipPositionOf ops v u).w,
         (clipPositionOf ops v u).z / (clipPositionOf ops v u).w⟩) ∧
    ((clipPositionOf ops v u).w = 0 →
      perspectiveDivide (clipPositionOf ops v u) =
        ⟨(clipPositionOf ops v u).x, (clipPositionOf ops v u).y,
         (clipPositionOf ops v u).z⟩) ∧
    (vertex_shader ops v u).transformed_position =
      (let ndc := perspectiveDivide (clipPositionOf ops v u)
       let screen := multiply_matrix_vector4 u.viewport_matrix ⟨ndc.x, ndc.y, ndc.z, 1⟩
       (⟨screen.x, screen.y, screen.z⟩ : Vec3)) := by
  refine ⟨fun h => ?_, fun h => ?_, rfl⟩
  · simp [perspectiveDivide, h]
  · simp [perspectiveDivide, h]

/-- Witness for C5: with all-ones matrices the clip `w` is 16 and the
divide branch fires; with all-zero matrices `w = 0` and the clip
coordinates pass through. -/
theorem perspective_divide_spec_witness :
    ((clipPositionOf opsZero vZero uOne).w ≠ 0 ∧
      perspectiveDivide (clipPositionOf opsZero vZero uOne) =
        ⟨(clipPositionOf opsZero vZero uOne).x / (clipPositionOf opsZero vZero uOne).w,
         (clipPositionOf opsZero vZero uOne).y / (clipPositionOf opsZero vZero uOne).w,
         (clipPositionOf opsZero vZero uOne).z / (clipPositionOf opsZero vZero uOne).w⟩) ∧
    ((clipPositionOf opsZero vZero uZero).w = 0 ∧
      perspectiveDivide (clipPositionOf opsZero vZero uZero) =
        ⟨(clipPositionOf opsZero vZero uZero).x, (clipPositionOf opsZero vZero uZero).y,
         (clipPositionOf opsZero vZero uZero).z⟩) := by
  have h1 : (clipPositionOf opsZero vZero uOne).w ≠ 0 := by
    norm_num [clipPositionOf, multiply_matrix_vector4, positionVec4, uOne, mOne,
      vZero, opsZero]
  have h0 : (clipPositionOf opsZero vZero uZero).w = 0 := by
    norm_num [clipPositionOf, multiply_matrix_vector4, positionVec4, uZero, mZero,
      vZero, opsZero]
  exact ⟨⟨h1, (perspective_divide_spec opsZero vZero uOne).1 h1⟩,
    ⟨h0, (perspective_divide_spec opsZero vZero uZero).2.1 h0⟩⟩

lemma clamp3_mem (c : Vec3) :
    0 ≤ (clamp3 c).x ∧ (clamp3 c).x ≤ 1 ∧ 0 ≤ (clamp3 c).y ∧ (clamp3 c).y ≤ 1 ∧
      0 ≤ (clamp3 c).z ∧ (clamp3 c).z ≤ 1 :=
  ⟨(clamp01_mem c.x).1, (clamp01_mem c.x).2, (clamp01_mem c.y).1,
    (clamp01_mem c.y).2, (clamp01_mem c.z).1, (clamp01_mem c.z).2⟩

/-- Claim C3: `fragment_shader` is a total function of the
material-type tag — tags 0,1,2,3,4,10 select the rocky, gaseous, ocean,
volcanic, crystal and ship shaders respectively, every other tag yields
the neutral gray `(0.5, 0.5, 0.5)` — it never fails, each returned
channel lies in `[0,1]`, and the result on a fixed input is identical
across repeated calls. -/
theorem fragment_shader_spec (ops : FOps) (fragment : Fragment) (uniforms : Uniforms) :
    (0 ≤ (fragment_shader ops fragment uniforms).x ∧
      (fragment_shader ops fragment uniforms).x ≤ 1 ∧
      0 ≤ (fragment_shader ops fragment uniforms).y ∧
      (fragment_shader ops fragment uniforms).y ≤ 1 ∧
      0 ≤ (fragment_shader ops fragment uniforms).z ∧
      (fragment_shader ops fragment uniforms).z ≤ 1) ∧
    (uniforms.planet_type = 0 → fragment_shader ops fragment uniforms =
      clamp3 (rocky_planet_shader ops fragment.world_position uniforms.time
        fragment.normal)) ∧
    (uniforms.planet_type = 1 → fragment_shader ops fragment uniforms =
      clamp3 (gas_giant_shader ops fragment.world_position uniforms.time
        fragment.normal)) ∧
    (uniforms.planet_type = 2 → fragment_shader ops fragment uniforms =
      clamp3 (ocean_planet_shader ops fragment.world_position uniforms.time
        fragment.normal)) ∧
    (uniforms.planet_type = 3 → fragment_shader ops fragment uniforms =
      clamp3 (volcanic_planet_shader ops fragment.world_position uniforms.time
        fragment.normal)) ∧
    (uniforms.planet_type = 4 → fragment_shader ops fragment uniforms =
      clamp3 (crystal_planet_shader ops fragment.world_position uniforms.time
        fragment.normal)) ∧
    (uniforms.planet_type = 10 → fragment_shader ops fragment uniforms =
      clamp3 (ship_shader ops fragment.world_position uniforms.time
        fragment.normal)) ∧
    (¬ (uniforms.planet_type = 0 ∨ uniforms.planet_type = 1 ∨
        uniforms.planet_type = 2 ∨ uniforms.planet_type = 3 ∨
        uniforms.planet_type = 4 ∨ uniforms.planet_type = 10) →
      fragment_shader ops fragment uniforms = ⟨0.5, 0.5, 0.5⟩) ∧
    (∀ fragment2 uniforms2, fragment2 = fragment → uniforms2 = uniforms →
      fragment_shader ops fragment2 uniforms2 =
        fragment_shader ops fragment uniforms) := by
  refine ⟨clamp3_mem _, fun h => ?_, fun h => ?_, fun h => ?_, fun h => ?_,
    fun h => ?_, fun h => ?_, fun h => ?_, fun f2 u2 h2 h3 => by rw [h2, h3]⟩
  · simp [fragment_shader, h]
  · simp [fragment_shader, h]
  · simp [fragment_shader, h]
  · simp [fragment_shader, h]
  · simp [fragment_shader, h]
  · simp [fragment_shader, h]
  · push_neg at h
    simp only [fragment_shader, h.1, h.2.1, h.2.2.1, h.2.2.2.1, h.2.2.2.2.1,
      h.2.2.2.2.2, if_false, if_neg]
    norm_num [clamp3, clamp01]

/-- Witness for C3: the unknown tag 7 yields the neutral gray, whose
channels lie in `[0,1]`. -/
theorem fragment_shader_spec_witness :
    fragment_shader opsZero fragZero uGray = ⟨0.5, 0.5, 0.5⟩ ∧
    0 ≤ (fragment_shader opsZero fragZero uGray).x := by
  have h := fragment_shader_spec opsZero fragZero uGray
  refine ⟨h.2.2.2.2.2.2.2.1 ?_, h.1.1⟩
  show ¬ (uGray.planet_type = 0 ∨ _ ∨ _ ∨ _ ∨ _ ∨ _)
  simp [uGray]

lemma safeNormalize_zero (ops : FOps) : safeNormalize ops ⟨0, 0, 0⟩ = ⟨0, 0, 0⟩ := by
  unfold safeNormalize
  ext <;> simp

/-- Claim C6: every normalization inside the pipeline (the vertex
stage's normal transform and the `N`, `L`, `V`, `H` normalizations of
the lighting function) goes through the guarded divisor: the divisor is
never zero (so the division can produce no NaN/Inf), a zero-length
input is passed through unchanged, and consequently the zero normal is
mapped to the zero vector by `transform_normal` and zero-length
lighting inputs give the finite result `(0, 0)`. -/
theorem normalize_guard_spec (ops : FOps) (h0 : ops.sqrtf 0 = 0) :
    (∀ v : Vec3, normDivisor ops v ≠ 0) ∧
    (∀ v : Vec3, sqLen v = 0 → safeNormalize ops v = v) ∧
    (∀ m : Mat4, transform_normal ops ⟨0, 0, 0⟩ m = ⟨0, 0, 0⟩) ∧
    calculate_lighting ops ⟨0, 0, 0⟩ ⟨0, 0, 0⟩ ⟨0, 0, 0⟩ = (0, 0) := by
  have hz := safeNormalize_zero ops
  refine ⟨fun v => ?_, fun v hv => ?_, fun m => ?_, ?_⟩
  · unfold normDivisor
    dsimp only
    split_ifs with h
    · exact one_ne_zero
    · exact h
  · unfold safeNormalize normDivisor
    rw [hv, h0]
    ext <;> simp
  · have h1 : (⟨(multiply_matrix_vector4 m ⟨0, 0, 0, 0⟩).x,
        (multiply_matrix_vector4 m ⟨0, 0, 0, 0⟩).y,
        (multiply_matrix_vector4 m ⟨0, 0, 0, 0⟩).z⟩ : Vec3) = ⟨0, 0, 0⟩ := by
      unfold multiply_matrix_vector4
      ext <;> simp
    unfold transform_normal
    dsimp only
    rw [h1, hz]
  · unfold calculate_lighting
    rw [hz]
    have hhalf : (⟨(0 + 0) * 0.5, (0 + 0) * 0.5, (0 + 0) * 0.5⟩ : Vec3) =
        ⟨0, 0, 0⟩ := by ext <;> norm_num
    dsimp only
    rw [hhalf, hz]
    norm_num

/-- Witness for C6 with the trivial square root (which maps 0 to 0). -/
theorem normalize_guard_spec_witness :
    normDivisor opsZero ⟨1, 2, 3⟩ ≠ 0 ∧
    safeNormalize opsZero ⟨0, 0, 0⟩ = ⟨0, 0, 0⟩ ∧
    calculate_lighting opsZero ⟨0, 0, 0⟩ ⟨0, 0, 0⟩ ⟨0, 0, 0⟩ = (0, 0) := by
  have h := normalize_guard_spec opsZero rfl
  exact ⟨h.1 _, h.2.1 _ (by norm_num [sqLen]), h.2.2.2⟩

lemma groupTriples_length {α : Type} : ∀ l : List α,
    (groupTriples l).length = l.length / 3
  | [] => by
    show (0 : ℕ) = 0 / 3
    omega
  | [_] => by
    show (0 : ℕ) = 1 / 3
    omega
  | [_, _] => by
    show (0 : ℕ) = 2 / 3
    omega
  | a :: b :: c :: rest => by
    show (groupTriples rest).length + 1 = (rest.length + 1 + 1 + 1) / 3
    rw [groupTriples_length rest]
    omega

lemma groupTriples_flatten {α : Type} : ∀ l : List α,
    flattenTriples (groupTriples l) (l.drop (3 * (l.length / 3))) = l
  | [] => by
    rw [show 3 * (([] : List α).length / 3) = 0 by simp]
    rfl
  | [a] => by
    rw [show 3 * (([a] : List α).length / 3) = 0 by simp]
    rfl
  | [a, b] => by
    rw [show 3 * (([a, b] : List α).length / 3) = 0 by simp]
    rfl
  | a :: b :: c :: rest => by
    have h3 : 3 * ((a :: b :: c :: rest).length / 3) =
        3 * (rest.length / 3) + 1 + 1 + 1 := by
      simp only [List.length_cons]
      omega
    calc flattenTriples (groupTriples (a :: b :: c :: rest))
          ((a :: b :: c :: rest).drop (3 * ((a :: b :: c :: rest).length / 3)))
        = a :: b :: c :: flattenTriples (groupTriples rest)
            ((a :: b :: c :: rest).drop (3 * (rest.length / 3) + 1 + 1 + 1)) := by
          rw [h3]
          rfl
      _ = a :: b :: c :: flattenTriples (groupTriples rest)
            (rest.drop (3 * (rest.length / 3))) := by
          simp [List.drop_succ_cons]
      _ = a :: b :: c :: rest := by rw [groupTriples_flatten rest]

lemma groupTriples_append_of_mod {α : Type} : ∀ A B : List α, A.length % 3 = 0 →
    groupTriples (A ++ B) = groupTriples A ++ groupTriples B
  | [], _, _ => rfl
  | [_], _, h => by simp at h
  | [_, _], _, h => by simp at h
  | a :: b :: c :: rest, B, h => by
    have h' : rest.length % 3 = 0 := by
      simp only [List.length_cons] at h
      omega
    show (a, b, c) :: groupTriples (rest ++ B) =
      (a, b, c) :: (groupTriples rest ++ groupTriples B)
    rw [groupTriples_append_of_mod rest B h']

lemma groupTriples_short {α : Type} : ∀ B : List α, B.length < 3 →
    groupTriples B = []
  | [], _ => rfl
  | [_], _ => rfl
  | [_, _], _ => rfl
  | _ :: _ :: _ :: rest, h => by
    exfalso
    simp only [List.length_cons] at h
    omega

/-- Claim C7: primitive assembly groups the transformed vertex stream
into consecutive triples in order (flattening the triples and appending
the dropped tail reproduces the stream); the triple count is
`⌊length/3⌋`, the dropped tail has `length mod 3 ∈ {0,1,2}` elements,
and appending 1–2 leftover vertices to a triangle-aligned mesh changes
nothing about a `render_body` pass: no triangles, no fragments, no
error. -/
theorem primitive_assembly_spec {α : Type} (l : List α) (ops : FOps)
    (tri : Rasterizer) (fb : Framebuffer) (u : Uniforms) (light : Light)
    (vs rest : List Vertex) (hmod : vs.length % 3 = 0) (hrest : rest.length < 3) :
    (groupTriples l).length = l.length / 3 ∧
    flattenTriples (groupTriples l) (l.drop (3 * (l.length / 3))) = l ∧
    (l.drop (3 * (l.length / 3))).length = l.length % 3 ∧
    render_body ops tri fb u (vs ++ rest) light =
      render_body ops tri fb u vs light := by
  refine ⟨groupTriples_length l, groupTriples_flatten l, ?_, ?_⟩
  · rw [List.length_drop]
    omega
  · simp only [render_body]
    rw [List.map_append,
      groupTriples_append_of_mod _ _ (by simpa using hmod),
      groupTriples_short (List.map (fun v => vertex_shader ops v u) rest)
        (by simpa using hrest),
      List.append_nil]

/-- Witness for C7: a 4-element stream yields one triangle, and one
trailing vertex appended to an empty (triangle-aligned) mesh leaves a
`render_body` pass unchanged. -/
theorem primitive_assembly_spec_witness :
    (groupTriples [1, 2, 3, 4]).length = 1 ∧
    render_body opsZero (fun _ _ _ _ => []) (Framebuffer.new 1 1) uZero
        ([] ++ [vZero]) lightZero =
      render_body opsZero (fun _ _ _ _ => []) (Framebuffer.new 1 1) uZero
        [] lightZero := by
  have h := primitive_assembly_spec [1, 2, 3, 4] opsZero (fun _ _ _ _ => [])
    (Framebuffer.new 1 1) uZero lightZero [] [vZero] rfl (by simp)
  exact ⟨h.1, h.2.2.2⟩

/-- Claim C10: `render_rings` and `render_moon` are independent of the
caller-supplied `render_type`: for any two uniforms differing only in
that field, each produces identical framebuffer effects (each forces
its own `render_type` — 1 and 2 respectively — on a private clone; the
caller's uniforms, taken by immutable reference in the Rust code and by
value here, are untouched). -/
theorem render_type_independence (ops : FOps) (tri : Rasterizer)
    (fb : Framebuffer) (u1 u2 : Uniforms) (vs : List Vertex) (light : Light)
    (hm : u1.model_matrix = u2.model_matrix)
    (hv : u1.view_matrix = u2.view_matrix)
    (hp : u1.projection_matrix = u2.projection_matrix)
    (hvp : u1.viewport_matrix = u2.viewport_matrix)
    (ht : u1.time = u2.time) (hd : u1.dt = u2.dt)
    (hpt : u1.planet_type = u2.planet_type) :
    render_rings ops tri fb u1 vs light = render_rings ops tri fb u2 vs light ∧
    render_moon ops tri fb u1 vs light = render_moon ops tri fb u2 vs light := by
  have key1 : ({ u1 with render_type := 1 } : Uniforms) =
      { u2 with render_type := 1 } := by
    cases u1; cases u2; simp_all
  have key2 : ({ u1 with render_type := 2 } : Uniforms) =
      { u2 with render_type := 2 } := by
    cases u1; cases u2; simp_all
  constructor
  · simp only [render_rings, key1]
  · simp only [render_moon, key2]

/-- Witness for C10: `uZero` and `uFive` differ only in `render_type`,
and both render entry points agree on them. -/
theorem render_type_independence_witness :
    render_rings opsZero (fun _ _ _ _ => []) (Framebuffer.new 1 1) uZero
        [] lightZero =
      render_rings opsZero (fun _ _ _ _ => []) (Framebuffer.new 1 1) uFive
        [] lightZero ∧
    render_moon opsZero (fun _ _ _ _ => []) (Framebuffer.new 1 1) uZero
        [] lightZero =
      render_moon opsZero (fun _ _ _ _ => []) (Framebuffer.new 1 1) uFive
        [] lightZero :=
  render_type_independence opsZero (fun _ _ _ _ => []) (Framebuffer.new 1 1)
    uZero uFive [] lightZero rfl rfl rfl rfl rfl rfl rfl

end Ship
